import Mathlib

/-
Shallow embedding of `src/api_pinecone.py`: the resilient query gateway over a
vector store (Pinecone) plus an embedding provider (OpenAI).

External collaborators (the Pinecone client/index and the OpenAI embeddings
endpoint) are modelled as an oracle `Env` that fixes the outcome of the k-th
call of each kind.  The mutable module-level globals of the Python file
(`pc`, `index`, `connection_attempts`) together with an explicit log of the
network calls performed (connection attempts, stats calls, vector queries,
embedding calls, sleeps) form the `World` state that every embedded function
threads through.

The Python functions embedded here:
  * `conectar_pinecone`  (lines 34-65): recursive bounded reconnection,
    global failure counter, flat 2-second sleep between attempts; note that
    the globals `pc` and `index` are assigned *before* the liveness probe.
  * `gerar_embedding`    (lines 71-90): catch, print, re-raise (identity on
    the error).
  * `listar_contratos`   (lines 161-223): stats + zero-vector probe query with
    top_k = skip+limit, slice [skip, skip+limit), reconnect-and-full-retry on
    error, HTTP 500 with the original error text.
  * `buscar_contratos`   (lines 225-279): empty-query 400 guard, embedding,
    query with top_k = limit, same rescue policy.
  * `listar_arquivos`    (lines 281-335): stats + zero-vector probe query with
    top_k = min(total, 1000), set of truthy `arquivo` metadata values, same
    rescue policy.
-/

namespace ApiPinecone

/-- Outcome of one low-level connection attempt inside `conectar_pinecone`.
An attempt executes three statements in order: `pc = Pinecone(...)`,
`index = pc.Index(...)`, `stats = index.describe_index_stats()`.  Each of the
first three constructors records the statement at which the attempt raised;
`success total` means the probe succeeded and reported `total` vectors. -/
inductive ConnOutcome where
  | failAtClient : ConnOutcome
  | failAtIndex : ConnOutcome
  | failAtStats : ConnOutcome
  | success : Nat → ConnOutcome
deriving DecidableEq

/-- Whether a connection attempt outcome is a failure (any raised statement). -/
def ConnOutcome.isFailure : ConnOutcome → Bool
  | .success _ => false
  | _ => true

/-- One match returned by `index.query(...)`: metadata fields `arquivo` and
`texto` (absent keys modelled as `none`) and the similarity `score`. -/
structure QueryMatch where
  arquivo : Option String
  texto : Option String
  score : Rat
deriving DecidableEq

/-- Oracle fixing the behaviour of the external services: the outcome of the
k-th connection attempt, of the k-th `describe_index_stats` call made by a
gateway operation, of the k-th `index.query` call (given the query vector and
`top_k`), and of the k-th embedding call (given the input text). -/
structure Env where
  connOutcome : Nat → ConnOutcome
  statsOutcome : Nat → Except String Nat
  queryOutcome : Nat → List Rat → Nat → Except String (List QueryMatch)
  embedOutcome : Nat → String → Except String (List Rat)

/-- The process-wide mutable state of the Python module plus a log of the
network calls performed.  `pc`/`index`/`connection_attempts` are the globals;
`nConn` counts connection attempts, `nStats` counts stats calls made by
gateway operations, `queries` logs each `index.query` call as
(vector, top_k), `embeds` logs each embedding call's input text, and
`sleeps` logs each `time.sleep` duration. -/
structure World where
  pc : Bool
  index : Option Nat
  connection_attempts : Nat
  nConn : Nat
  nStats : Nat
  queries : List (List Rat × Nat)
  embeds : List String
  sleeps : List Nat
deriving DecidableEq

/-- The fresh-process state: all globals unset, nothing logged. -/
def world0 : World := ⟨false, none, 0, 0, 0, [], [], []⟩

/-- `MAX_RECONNECT_ATTEMPTS = 3` (line 32). -/
def MAX_RECONNECT_ATTEMPTS : Nat := 3

/-- Embedding of `conectar_pinecone` (lines 34-65).  One attempt runs the
three statements of the try block; on success the failure counter is reset
and the fresh handle (identified by the attempt number) is stored.  On
failure the globals updated before the raising statement keep their new
values, the counter is incremented, and if it is still below
`MAX_RECONNECT_ATTEMPTS` the function sleeps 2 seconds and recurses. -/
def conectar_pinecone (env : Env) (w : World) : Bool × World :=
  match env.connOutcome w.nConn with
  | .success _total =>
      (true, { w with nConn := w.nConn + 1, pc := true, index := some w.nConn,
                      connection_attempts := 0 })
  | .failAtClient =>
      let w1 : World := { w with nConn := w.nConn + 1,
                                 connection_attempts := w.connection_attempts + 1 }
      if h : w1.connection_attempts < MAX_RECONNECT_ATTEMPTS then
        conectar_pinecone env { w1 with sleeps := w1.sleeps ++ [2] }
      else
        (false, w1)
  | .failAtIndex =>
      let w1 : World := { w with nConn := w.nConn + 1, pc := true,
                                 connection_attempts := w.connection_attempts + 1 }
      if h : w1.connection_attempts < MAX_RECONNECT_ATTEMPTS then
        conectar_pinecone env { w1 with sleeps := w1.sleeps ++ [2] }
      else
        (false, w1)
  | .failAtStats =>
      let w1 : World := { w with nConn := w.nConn + 1, pc := true,
                                 index := some w.nConn,
                                 connection_attempts := w.connection_attempts + 1 }
      if h : w1.connection_attempts < MAX_RECONNECT_ATTEMPTS then
        conectar_pinecone env { w1 with sleeps := w1.sleeps ++ [2] }
      else
        (false, w1)
termination_by MAX_RECONNECT_ATTEMPTS - w.connection_attempts
decreasing_by
  all_goals simp_all [MAX_RECONNECT_ATTEMPTS]
  all_goals omega

/-- Result of one caller-visible gateway operation: a returned value, a raised
`HTTPException(status_code, detail)`, or exhaustion of the explicit recursion
fuel (a model artifact: the Python retry recursion has no a-priori depth
bound, so the embedding makes non-termination observable instead of silent). -/
inductive OpResult (α : Type) where
  | ok : α → OpResult α
  | http : Nat → String → OpResult α
  | outOfFuel : OpResult α
deriving DecidableEq

/-- Response row built from a match (lines 204-208 / 258-262): absent
metadata keys default to the empty string, the score is copied verbatim. -/
structure ContratoResponse where
  arquivo : String
  texto : String
  score : Rat
deriving DecidableEq

/-- `SearchResponse(resultados=..., total=...)` (lines 119-121). -/
structure SearchResponse where
  resultados : List ContratoResponse
  total : Nat
deriving DecidableEq

/-- `ContratoResponse(arquivo=match.metadata.get("arquivo", ""), ...)`. -/
def matchToResponse (m : QueryMatch) : ContratoResponse :=
  ⟨m.arquivo.getD "", m.texto.getD "", m.score⟩

/-- The zero-filled probe vector `dummy_vector = [0.0] * 1024`
(lines 190 / 306). -/
def dummy_vector : List Rat := List.replicate 1024 0

/-- The 503 detail string raised when no connection can be established
(lines 173-176 / 240-243 / 290-293). -/
def detail503 : String :=
  "Serviço temporariamente indisponível. Não foi possível conectar ao Pinecone."

/-- `index.describe_index_stats()` followed by
`stats.get("total_vector_count", 0)` as performed by a gateway operation. -/
def indexStats (env : Env) (w : World) : Except String Nat × World :=
  (env.statsOutcome w.nStats, { w with nStats := w.nStats + 1 })

/-- `index.query(vector=v, top_k=k, include_metadata=True)`: logs the call
and returns the oracle's outcome for it. -/
def indexQuery (env : Env) (vector : List Rat) (topK : Nat) (w : World) :
    Except String (List QueryMatch) × World :=
  (env.queryOutcome w.queries.length vector topK,
   { w with queries := w.queries ++ [(vector, topK)] })

/-- Embedding of `gerar_embedding` (lines 71-90): the try/except prints and
re-raises, so the function is the oracle's outcome for the call, logged. -/
def gerar_embedding (env : Env) (texto : String) (w : World) :
    Except String (List Rat) × World :=
  (env.embedOutcome w.embeds.length texto, { w with embeds := w.embeds ++ [texto] })

/-- The connection precondition shared by all three operations
(`if not index and not conectar_pinecone(): raise HTTPException(503, ...)`,
lines 172-176 / 239-243 / 289-293): when the handle global is unset, run
`conectar_pinecone` and report its verdict; otherwise proceed unchanged. -/
def checkConnection (env : Env) (w : World) : Bool × World :=
  match w.index with
  | none => conectar_pinecone env w
  | some _ => (true, w)

/-- Embedding of `listar_contratos` (lines 161-223).  `fuel` bounds the depth
of the reconnect-and-retry recursion of the except block (lines 212-223),
in which a successful `conectar_pinecone` leads to a full recursive
re-invocation whose non-`ok` outcome is discarded in favour of an
HTTP 500 carrying this level's error text. -/
def listar_contratos (env : Env) (fuel : Nat) (skip limit : Nat) (w : World) :
    OpResult SearchResponse × World :=
  match fuel with
  | 0 => (.outOfFuel, w)
  | fuel + 1 =>
    let conn := checkConnection env w
    if conn.1 then
      let s := indexStats env conn.2
      match s.1 with
      | .ok total =>
        let qr := indexQuery env dummy_vector (skip + limit) s.2
        match qr.1 with
        | .ok ms =>
          let paged := (ms.drop skip).take limit
          (.ok ⟨paged.map matchToResponse, total⟩, qr.2)
        | .error e =>
          let r := conectar_pinecone env qr.2
          if r.1 then
            match listar_contratos env fuel skip limit r.2 with
            | (.ok v, w2) => (.ok v, w2)
            | (.outOfFuel, w2) => (.outOfFuel, w2)
            | (.http _ _, w2) =>
                (.http 500 ("Erro ao listar contratos: " ++ e), w2)
          else
            (.http 500 ("Erro ao listar contratos: " ++ e), r.2)
      | .error e =>
        let r := conectar_pinecone env s.2
        if r.1 then
          match listar_contratos env fuel skip limit r.2 with
          | (.ok v, w2) => (.ok v, w2)
          | (.outOfFuel, w2) => (.outOfFuel, w2)
          | (.http _ _, w2) =>
              (.http 500 ("Erro ao listar contratos: " ++ e), w2)
        else
          (.http 500 ("Erro ao listar contratos: " ++ e), r.2)
    else
      (.http 503 detail503, conn.2)

/-- Embedding of `buscar_contratos` (lines 225-279): the empty-query guard
precedes everything, then the connection precondition, the embedding call,
and the similarity query with `top_k = limit`; the except block (lines
268-279) follows the same reconnect-and-full-retry policy as `list`. -/
def buscar_contratos (env : Env) (fuel : Nat) (q : String) (limit : Nat) (w : World) :
    OpResult SearchResponse × World :=
  match fuel with
  | 0 => (.outOfFuel, w)
  | fuel + 1 =>
    if q = "" then
      (.http 400 "A consulta não pode estar vazia", w)
    else
      let conn := checkConnection env w
      if conn.1 then
        let emb := gerar_embedding env q conn.2
        match emb.1 with
        | .ok vec =>
          let qr := indexQuery env vec limit emb.2
          match qr.1 with
          | .ok ms =>
            let resultados := ms.map matchToResponse
            (.ok ⟨resultados, resultados.length⟩, qr.2)
          | .error e =>
            let r := conectar_pinecone env qr.2
            if r.1 then
              match buscar_contratos env fuel q limit r.2 with
              | (.ok v, w2) => (.ok v, w2)
              | (.outOfFuel, w2) => (.outOfFuel, w2)
              | (.http _ _, w2) =>
                  (.http 500 ("Erro ao realizar a busca: " ++ e), w2)
            else
              (.http 500 ("Erro ao realizar a busca: " ++ e), r.2)
        | .error e =>
          let r := conectar_pinecone env emb.2
          if r.1 then
            match buscar_contratos env fuel q limit r.2 with
            | (.ok v, w2) => (.ok v, w2)
            | (.outOfFuel, w2) => (.outOfFuel, w2)
            | (.http _ _, w2) =>
                (.http 500 ("Erro ao realizar a busca: " ++ e), w2)
          else
            (.http 500 ("Erro ao realizar a busca: " ++ e), r.2)
      else
        (.http 503 detail503, conn.2)

/-- The accumulation of lines 316-320: `arquivos = set()` then
`for match: arquivo = match.metadata.get("arquivo"); if arquivo:
arquivos.add(arquivo)`.  A Python set is modelled as a duplicate-free list
grown by membership-checked insertion; `if arquivo:` is false for an absent
key (`None`) and for the empty string. -/
def coletar_arquivos : List QueryMatch → List String → List String
  | [], acc => acc
  | m :: ms, acc =>
      coletar_arquivos ms
        (match m.arquivo with
         | some a => if a = "" then acc else if a ∈ acc then acc else acc ++ [a]
         | none => acc)

/-- Embedding of `listar_arquivos` (lines 281-335): stats, then a zero-vector
probe query with `top_k = min(total, 1000)`, then the set of truthy
`arquivo` metadata values; same rescue policy as the other operations. -/
def listar_arquivos (env : Env) (fuel : Nat) (w : World) :
    OpResult (List String) × World :=
  match fuel with
  | 0 => (.outOfFuel, w)
  | fuel + 1 =>
    let conn := checkConnection env w
    if conn.1 then
      let s := indexStats env conn.2
      match s.1 with
      | .ok total =>
        let qr := indexQuery env dummy_vector (min total 1000) s.2
        match qr.1 with
        | .ok ms =>
          (.ok (coletar_arquivos ms []), qr.2)
        | .error e =>
          let r := conectar_pinecone env qr.2
          if r.1 then
            match listar_arquivos env fuel r.2 with
            | (.ok v, w2) => (.ok v, w2)
            | (.outOfFuel, w2) => (.outOfFuel, w2)
            | (.http _ _, w2) =>
                (.http 500 ("Erro ao listar arquivos: " ++ e), w2)
          else
            (.http 500 ("Erro ao listar arquivos: " ++ e), r.2)
      | .error e =>
        let r := conectar_pinecone env s.2
        if r.1 then
          match listar_arquivos env fuel r.2 with
          | (.ok v, w2) => (.ok v, w2)
          | (.outOfFuel, w2) => (.outOfFuel, w2)
          | (.http _ _, w2) =>
              (.http 500 ("Erro ao listar arquivos: " ++ e), w2)
        else
          (.http 500 ("Erro ao listar arquivos: " ++ e), r.2)
    else
      (.http 503 detail503, conn.2)


/-! ### Concrete environments and worlds used by witnesses and counterexamples -/

/-- A store that is reachable enough to build a client and an index handle but
whose stats probe always raises, and whose other endpoints are all down. -/
def envStatsFail : Env :=
  ⟨fun _ => .failAtStats, fun _ => .error "down", fun _ _ _ => .error "down",
   fun _ _ => .error "down"⟩

/-- A store whose client constructor always raises (nothing else reachable). -/
def envClientFail : Env :=
  ⟨fun _ => .failAtClient, fun _ => .error "down", fun _ _ _ => .error "down",
   fun _ _ => .error "down"⟩

/-- A process state with a live handle already stored (as after a successful
startup connection). -/
def wLive : World := { world0 with index := some 0 }

/-- Connection and stats always succeed, but the first two vector queries
raise and only the third succeeds; embeddings always succeed. -/
def envRetryTwice : Env :=
  ⟨fun _ => .success 0, fun _ => .ok 7,
   fun k _ _ => if k < 2 then .error "falha na consulta" else .ok [],
   fun _ _ => .ok [1]⟩

/-- Everything healthy: search returns no matches, stats reports 0 vectors. -/
def envSearchOk : Env :=
  ⟨fun _ => .success 0, fun _ => .ok 0, fun _ _ _ => .ok [], fun _ _ => .ok [1]⟩

/-- A fixed set of matches exercising duplicate, empty and absent `arquivo`
metadata values. -/
def msDemo : List QueryMatch :=
  [⟨some "a", some "t1", 3⟩, ⟨some "", some "t2", 2⟩, ⟨none, some "t3", 2⟩,
   ⟨some "a", some "t4", 1⟩, ⟨some "b", some "t5", 0⟩]

/-- Healthy store that always returns `msDemo` and reports 5 vectors. -/
def envFilesOk : Env :=
  ⟨fun _ => .success 5, fun _ => .ok 5, fun _ _ _ => .ok msDemo, fun _ _ => .ok [1]⟩

/-- Healthy store reporting 42 vectors whose probe queries return `msDemo`. -/
def envListOk : Env :=
  ⟨fun _ => .success 42, fun _ => .ok 42, fun _ _ _ => .ok msDemo, fun _ _ => .ok [1]⟩

/-- First reconnection succeeds, every later connection attempt raises at the
client constructor; every vector query fails, with an error text that names
the call index; stats and embeddings succeed. -/
def envC10 : Env :=
  ⟨fun k => if k = 0 then .success 5 else .failAtClient,
   fun _ => .ok 7,
   fun k _ _ => .error (if k = 0 then "erro um" else "erro dois"),
   fun _ _ => .ok [1]⟩

/-! ### Helper lemmas about `conectar_pinecone` -/

/-- `conectar_pinecone` performs no stats, query or embedding call: it leaves
the corresponding logs untouched. -/
theorem conectar_preserves (env : Env) (w : World) :
    (conectar_pinecone env w).2.queries = w.queries ∧
    (conectar_pinecone env w).2.embeds = w.embeds ∧
    (conectar_pinecone env w).2.nStats = w.nStats := by
  induction w using conectar_pinecone.induct env with
  | case1 w t h => rw [conectar_pinecone, h]; simp only []; simp
  | case2 w h w1 hlt ih =>
      rw [conectar_pinecone, h]; simp only []; rw [dif_pos hlt]; exact ih
  | case3 w h w1 hlt =>
      rw [conectar_pinecone, h]; simp only []; rw [dif_neg hlt]; simp
  | case4 w h w1 hlt ih =>
      rw [conectar_pinecone, h]; simp only []; rw [dif_pos hlt]; exact ih
  | case5 w h w1 hlt =>
      rw [conectar_pinecone, h]; simp only []; rw [dif_neg hlt]; simp
  | case6 w h w1 hlt ih =>
      rw [conectar_pinecone, h]; simp only []; rw [dif_pos hlt]; exact ih
  | case7 w h w1 hlt =>
      rw [conectar_pinecone, h]; simp only []; rw [dif_neg hlt]; simp

/-- When the next connection attempt succeeds, `conectar_pinecone` returns
after that single attempt, storing the fresh handle and resetting the
failure counter. -/
theorem conectar_success_eq (env : Env) (w : World) (t : Nat)
    (h : env.connOutcome w.nConn = .success t) :
    conectar_pinecone env w =
      (true, { w with nConn := w.nConn + 1, pc := true, index := some w.nConn,
                      connection_attempts := 0 }) := by
  rw [conectar_pinecone, h]

/-- Against a deterministically failing store, `conectar_pinecone` entered
with the failure counter strictly below the bound performs exactly
`MAX_RECONNECT_ATTEMPTS - counter` attempts, sleeping 2 seconds between
consecutive attempts, and reports failure with the counter at the bound. -/
theorem conectar_fail_run (env : Env)
    (hf : ∀ k, (env.connOutcome k).isFailure = true) :
    ∀ w : World, w.connection_attempts < MAX_RECONNECT_ATTEMPTS →
    (conectar_pinecone env w).1 = false ∧
    (conectar_pinecone env w).2.nConn =
      w.nConn + (MAX_RECONNECT_ATTEMPTS - w.connection_attempts) ∧
    (conectar_pinecone env w).2.sleeps =
      w.sleeps ++ List.replicate (MAX_RECONNECT_ATTEMPTS - w.connection_attempts - 1) 2 ∧
    (conectar_pinecone env w).2.connection_attempts = MAX_RECONNECT_ATTEMPTS := by
  have hM : MAX_RECONNECT_ATTEMPTS = 3 := rfl
  intro w
  induction w using conectar_pinecone.induct env with
  | case1 w t h => intro hc; have := hf w.nConn; rw [h] at this; simp [ConnOutcome.isFailure] at this
  | case2 w h w1 hlt ih =>
      intro hc
      rw [conectar_pinecone, h]; simp only []; rw [dif_pos hlt]
      simp only [] at hlt
      have hres := ih hlt
      refine ⟨hres.1, ?_, ?_, hres.2.2.2⟩
      · rw [hres.2.1]; simp; omega
      · rw [hres.2.2.1]; simp only []
        rw [List.append_assoc]
        congr 1
        have h2 : MAX_RECONNECT_ATTEMPTS - (w.connection_attempts + 1) - 1 + 1 =
            MAX_RECONNECT_ATTEMPTS - w.connection_attempts - 1 := by omega
        rw [show ([2] : List Nat) ++
              List.replicate (MAX_RECONNECT_ATTEMPTS - (w.connection_attempts + 1) - 1) 2 =
            List.replicate (MAX_RECONNECT_ATTEMPTS - (w.connection_attempts + 1) - 1 + 1) 2 from
          by rw [List.replicate_succ]; rfl]
        rw [h2]
  | case3 w h w1 hlt =>
      intro hc
      rw [conectar_pinecone, h]; simp only []; rw [dif_neg hlt]
      simp only [] at hlt
      have hc3 : w.connection_attempts + 1 = MAX_RECONNECT_ATTEMPTS := by omega
      refine ⟨rfl, by simp; omega, by simp [show MAX_RECONNECT_ATTEMPTS - w.connection_attempts - 1 = 0 from by omega], by simp [hc3]⟩
  | case4 w h w1 hlt ih =>
      intro hc
      rw [conectar_pinecone, h]; simp only []; rw [dif_pos hlt]
      simp only [] at hlt
      have hres := ih hlt
      refine ⟨hres.1, ?_, ?_, hres.2.2.2⟩
      · rw [hres.2.1]; simp; omega
      · rw [hres.2.2.1]; simp only []
        rw [List.append_assoc]
        congr 1
        have h2 : MAX_RECONNECT_ATTEMPTS - (w.connection_attempts + 1) - 1 + 1 =
            MAX_RECONNECT_ATTEMPTS - w.connection_attempts - 1 := by omega
        rw [show ([2] : List Nat) ++
              List.replicate (MAX_RECONNECT_ATTEMPTS - (w.connection_attempts + 1) - 1) 2 =
            List.replicate (MAX_RECONNECT_ATTEMPTS - (w.connection_attempts + 1) - 1 + 1) 2 from
          by rw [List.replicate_succ]; rfl]
        rw [h2]
  | case5 w h w1 hlt =>
      intro hc
      rw [conectar_pinecone, h]; simp only []; rw [dif_neg hlt]
      simp only [] at hlt
      have hc3 : w.connection_attempts + 1 = MAX_RECONNECT_ATTEMPTS := by omega
      refine ⟨rfl, by simp; omega, by simp [show MAX_RECONNECT_ATTEMPTS - w.connection_attempts - 1 = 0 from by omega], by simp [hc3]⟩
  | case6 w h w1 hlt ih =>
      intro hc
      rw [conectar_pinecone, h]; simp only []; rw [dif_pos hlt]
      simp only [] at hlt
      have hres := ih hlt
      refine ⟨hres.1, ?_, ?_, hres.2.2.2⟩
      · rw [hres.2.1]; simp; omega
      · rw [hres.2.2.1]; simp only []
        rw [List.append_assoc]
        congr 1
        have h2 : MAX_RECONNECT_ATTEMPTS - (w.connection_attempts + 1) - 1 + 1 =
            MAX_RECONNECT_ATTEMPTS - w.connection_attempts - 1 := by omega
        rw [show ([2] : List Nat) ++
              List.replicate (MAX_RECONNECT_ATTEMPTS - (w.connection_attempts + 1) - 1) 2 =
            List.replicate (MAX_RECONNECT_ATTEMPTS - (w.connection_attempts + 1) - 1 + 1) 2 from
          by rw [List.replicate_succ]; rfl]
        rw [h2]
  | case7 w h w1 hlt =>
      intro hc
      rw [conectar_pinecone, h]; simp only []; rw [dif_neg hlt]
      simp only [] at hlt
      have hc3 : w.connection_attempts + 1 = MAX_RECONNECT_ATTEMPTS := by omega
      refine ⟨rfl, by simp; omega, by simp [show MAX_RECONNECT_ATTEMPTS - w.connection_attempts - 1 = 0 from by omega], by simp [hc3]⟩

/-! ### Claim C1 -/

/-- C1 (counterexample): the claim "a failed `connect()` leaves the handle
unset" is false.  When every attempt fails at the stats probe, the exhausted
`conectar_pinecone` reports failure yet leaves the global handle set to the
non-null, unverified handle created by the last attempt. -/
theorem C1_counterexample :
    (conectar_pinecone envStatsFail world0).1 = false ∧
    (conectar_pinecone envStatsFail world0).2.index = some 2 := by
  simp [conectar_pinecone, envStatsFail, world0, MAX_RECONNECT_ATTEMPTS]

/-- C1 (amended): if `connect()` exhausts its attempt bound it returns
failure, and the handle is guaranteed to be left unchanged (hence unset when
it started unset) only when every attempt fails before the index-handle
assignment, i.e. at the client constructor or at index-handle creation; an
attempt that reaches the stats probe and fails there leaves a non-null,
unverified handle behind. -/
theorem C1_failed_connect_handle_unchanged (env : Env) (w : World)
    (h : ∀ k, env.connOutcome k = .failAtClient ∨ env.connOutcome k = .failAtIndex) :
    (conectar_pinecone env w).1 = false ∧
    (conectar_pinecone env w).2.index = w.index := by
  induction w using conectar_pinecone.induct env with
  | case1 w t hc => rcases h w.nConn with h1 | h1 <;> rw [hc] at h1 <;> cases h1
  | case2 w hc w1 hlt ih =>
      rw [conectar_pinecone, hc]; simp only []; rw [dif_pos hlt]; exact ih
  | case3 w hc w1 hlt =>
      rw [conectar_pinecone, hc]; simp only []; rw [dif_neg hlt]; exact ⟨rfl, rfl⟩
  | case4 w hc w1 hlt ih =>
      rw [conectar_pinecone, hc]; simp only []; rw [dif_pos hlt]; exact ih
  | case5 w hc w1 hlt =>
      rw [conectar_pinecone, hc]; simp only []; rw [dif_neg hlt]; exact ⟨rfl, rfl⟩
  | case6 w hc w1 hlt ih => rcases h w.nConn with h1 | h1 <;> rw [hc] at h1 <;> cases h1
  | case7 w hc w1 hlt => rcases h w.nConn with h1 | h1 <;> rw [hc] at h1 <;> cases h1

/-- C1 (witness): a store whose client constructor always raises satisfies
the amended claim's hypothesis, and there the exhausted connect indeed leaves
the handle unset. -/
theorem C1_witness :
    (∀ k, envClientFail.connOutcome k = ConnOutcome.failAtClient ∨
          envClientFail.connOutcome k = ConnOutcome.failAtIndex) ∧
    (conectar_pinecone envClientFail world0).1 = false ∧
    (conectar_pinecone envClientFail world0).2.index = world0.index :=
  ⟨fun _ => Or.inl rfl,
   (C1_failed_connect_handle_unchanged envClientFail world0 (fun _ => Or.inl rfl)).1,
   (C1_failed_connect_handle_unchanged envClientFail world0 (fun _ => Or.inl rfl)).2⟩

/-! ### Claim C2 -/

/-- C2 (counterexample): the claim "every invocation against a
deterministically failing store performs exactly 3 attempts, regardless of
earlier invocations" is false.  The failure counter is a process-wide global
that is only reset on success, so after a first invocation exhausts the bound
(3 attempts, `nConn = 3`), a second invocation performs a single attempt
(`nConn` goes to 4, not 6) before surfacing failure. -/
theorem C2_counterexample :
    (conectar_pinecone envStatsFail world0).2.nConn = 3 ∧
    (conectar_pinecone envStatsFail (conectar_pinecone envStatsFail world0).2).1 = false ∧
    (conectar_pinecone envStatsFail (conectar_pinecone envStatsFail world0).2).2.nConn = 4 := by
  simp [conectar_pinecone, envStatsFail, world0, MAX_RECONNECT_ATTEMPTS]

/-- C2 (amended): against a deterministically failing store, an invocation of
`connect()` that starts with the failure counter at zero (process start, or
any point after the last successful connect) performs exactly
`MAX_RECONNECT_ATTEMPTS` (3) attempts, with a flat 2-unit delay between
consecutive attempts, before surfacing failure; an invocation that starts
after a previous exhausted failure performs fewer. -/
theorem C2_reconnect_bound_from_zero (env : Env) (w : World)
    (hf : ∀ k, (env.connOutcome k).isFailure = true)
    (h0 : w.connection_attempts = 0) :
    (conectar_pinecone env w).1 = false ∧
    (conectar_pinecone env w).2.nConn = w.nConn + MAX_RECONNECT_ATTEMPTS ∧
    (conectar_pinecone env w).2.sleeps = w.sleeps ++ [2, 2] := by
  have h := conectar_fail_run env hf w (by rw [h0]; decide)
  refine ⟨h.1, ?_, ?_⟩
  · rw [h.2.1, h0, Nat.sub_zero]
  · rw [h.2.2.1, h0]
    rfl

/-- C2 (witness): with a store whose client constructor always raises and a
fresh process state, connect makes exactly 3 attempts and sleeps twice. -/
theorem C2_witness :
    (∀ k, (envClientFail.connOutcome k).isFailure = true) ∧
    world0.connection_attempts = 0 ∧
    ((conectar_pinecone envClientFail world0).1 = false ∧
     (conectar_pinecone envClientFail world0).2.nConn =
       world0.nConn + MAX_RECONNECT_ATTEMPTS ∧
     (conectar_pinecone envClientFail world0).2.sleeps = world0.sleeps ++ [2, 2]) :=
  ⟨fun _ => rfl, rfl,
   C2_reconnect_bound_from_zero envClientFail world0 (fun _ => rfl) rfl⟩

/-! ### Claim C5 -/

/-- C5: for every empty query string, `buscar_contratos` fails with HTTP 400
and the returned process state is exactly the input state: no embedding call,
no connection attempt and no vector query happens (all call logs unchanged). -/
theorem C5_empty_query_rejected (env : Env) (f limit : Nat) (w : World) :
    buscar_contratos env (f + 1) "" limit w =
      (.http 400 "A consulta não pode estar vazia", w) := by
  simp [buscar_contratos]

/-! ### Claim C4 -/

/-- C4: for every operation, when no live handle is known and `connect()`
fails, the operation raises HTTP 503 immediately; the final state is exactly
the state left by the failed connect, whose query and embedding logs are
unchanged — so no vector query is attempted and (for search) no embedding
call is attempted. -/
theorem C4_no_handle_connect_fail_503 (env : Env) (f skip limit : Nat)
    (q : String) (w : World)
    (hq : q ≠ "") (hidx : w.index = none)
    (hc : (conectar_pinecone env w).1 = false) :
    listar_contratos env (f + 1) skip limit w =
      (.http 503 detail503, (conectar_pinecone env w).2) ∧
    buscar_contratos env (f + 1) q limit w =
      (.http 503 detail503, (conectar_pinecone env w).2) ∧
    listar_arquivos env (f + 1) w =
      (.http 503 detail503, (conectar_pinecone env w).2) ∧
    (conectar_pinecone env w).2.queries = w.queries ∧
    (conectar_pinecone env w).2.embeds = w.embeds := by
  refine ⟨?_, ?_, ?_, (conectar_preserves env w).1, (conectar_preserves env w).2.1⟩
  · rw [listar_contratos]
    simp [checkConnection, hidx, hc]
  · rw [buscar_contratos]
    simp [checkConnection, hidx, hc, hq]
  · rw [listar_arquivos]
    simp [checkConnection, hidx, hc]

/-- C4 (witness): with the store fully unreachable and a fresh process state,
all three operations return 503 with no query and no embedding performed. -/
theorem C4_witness :
    ("x" : String) ≠ "" ∧ world0.index = none ∧
    (conectar_pinecone envClientFail world0).1 = false ∧
    (listar_contratos envClientFail 1 0 10 world0 =
       (.http 503 detail503, (conectar_pinecone envClientFail world0).2) ∧
     buscar_contratos envClientFail 1 "x" 5 world0 =
       (.http 503 detail503, (conectar_pinecone envClientFail world0).2) ∧
     listar_arquivos envClientFail 1 world0 =
       (.http 503 detail503, (conectar_pinecone envClientFail world0).2) ∧
     (conectar_pinecone envClientFail world0).2.queries = world0.queries ∧
     (conectar_pinecone envClientFail world0).2.embeds = world0.embeds) := by
  have hc : (conectar_pinecone envClientFail world0).1 = false := by
    simp [conectar_pinecone, envClientFail, world0, MAX_RECONNECT_ATTEMPTS]
  exact ⟨by decide, rfl, hc,
    C4_no_handle_connect_fail_503 envClientFail 0 0 5 "x" world0 (by decide) rfl hc⟩

/-! ### Helper lemmas about `coletar_arquivos` and `listar_arquivos` -/

/-- The set-accumulation never introduces duplicates. -/
theorem coletar_arquivos_nodup (ms : List QueryMatch) :
    ∀ acc : List String, acc.Nodup → (coletar_arquivos ms acc).Nodup := by
  induction ms with
  | nil => intro acc h; exact h
  | cons m ms ih =>
    intro acc h
    rw [coletar_arquivos]
    cases hm : m.arquivo with
    | none => exact ih acc h
    | some a =>
      by_cases ha : a = ""
      · simp only [ha, if_pos rfl]
        exact ih acc h
      · by_cases hmem : a ∈ acc
        · simp only [if_neg ha, if_pos hmem]
          exact ih acc h
        · simp only [if_neg ha, if_neg hmem]
          exact ih _ (by simp [List.nodup_append, h, hmem])

/-- Membership in the accumulated set: exactly the strings already in the
accumulator plus the non-empty `arquivo` values of the matches. -/
theorem coletar_arquivos_mem (ms : List QueryMatch) :
    ∀ (acc : List String) (a : String),
      a ∈ coletar_arquivos ms acc ↔
        a ∈ acc ∨ ∃ m ∈ ms, m.arquivo = some a ∧ a ≠ "" := by
  induction ms with
  | nil => intro acc a; simp [coletar_arquivos]
  | cons m ms ih =>
    intro acc a
    rw [coletar_arquivos]
    cases hm : m.arquivo with
    | none => rw [ih]; aesop
    | some b =>
      by_cases hb : b = ""
      · subst hb; simp only [if_pos rfl]; rw [ih]; aesop
      · by_cases hmem : b ∈ acc
        · simp only [if_neg hb, if_pos hmem]; rw [ih]; aesop
        · simp only [if_neg hb, if_neg hmem]; rw [ih]; aesop

/-- Characterization of a successful `listar_arquivos` run against a store
whose stats calls all report `T` vectors and whose probe queries all return
`ms`: the files are the accumulated set over `ms` and exactly one probe
query with the zero vector and `top_k = min T 1000` was issued. -/
theorem listar_arquivos_run (env : Env) (f T : Nat) (ms : List QueryMatch)
    (w : World) (files : List String) (w2 : World)
    (hT : ∀ k, env.statsOutcome k = .ok T)
    (hq : ∀ k, env.queryOutcome k dummy_vector (min T 1000) = .ok ms)
    (hrun : listar_arquivos env (f + 1) w = (.ok files, w2)) :
    files = coletar_arquivos ms [] ∧
    w2.queries = w.queries ++ [(dummy_vector, min T 1000)] := by
  rw [listar_arquivos] at hrun
  rcases hw : w.index with _ | i
  · rcases hcb : (conectar_pinecone env w).1 with _ | _
    · simp [checkConnection, hw, hcb] at hrun
    · simp [checkConnection, hw, hcb, indexStats, indexQuery, hT, hq] at hrun
      obtain ⟨h1, h2⟩ := hrun
      refine ⟨h1.symm, ?_⟩
      rw [← h2]
      simp [(conectar_preserves env w).1]
  · simp [checkConnection, hw, indexStats, indexQuery, hT, hq] at hrun
    obtain ⟨h1, h2⟩ := hrun
    refine ⟨h1.symm, ?_⟩
    rw [← h2]

/-! ### Claim C7 -/

/-- C7: for every successful `list(skip, limit)` against a store reporting a
global vector count `T` and answering the zero-vector probe (issued with
`top_k = skip + limit`) with the ordered sequence `ms`, the result's `total`
is `T` independently of `skip` and `limit`, its hits are exactly the window
`[skip, skip+limit)` of `ms`, and hence at most `limit` hits are returned
(in particular `skip = 0, limit = 0` yields empty hits with `total = T`). -/
theorem C7_list_total_and_window (env : Env) (f skip limit T : Nat)
    (ms : List QueryMatch) (w : World) (r : SearchResponse) (w2 : World)
    (hT : ∀ k, env.statsOutcome k = .ok T)
    (hq : ∀ k, env.queryOutcome k dummy_vector (skip + limit) = .ok ms)
    (hrun : listar_contratos env (f + 1) skip limit w = (.ok r, w2)) :
    r.total = T ∧
    r.resultados = ((ms.drop skip).take limit).map matchToResponse ∧
    r.resultados.length ≤ limit := by
  rw [listar_contratos] at hrun
  rcases hw : w.index with _ | i
  · rcases hcb : (conectar_pinecone env w).1 with _ | _
    · simp [checkConnection, hw, hcb] at hrun
    · simp [checkConnection, hw, hcb, indexStats, indexQuery, hT, hq] at hrun
      obtain ⟨h1, -⟩ := hrun
      subst h1
      refine ⟨rfl, ?_, ?_⟩
      · simp [List.map_take, List.map_drop]
      · simp only [List.length_take]
        omega
  · simp [checkConnection, hw, indexStats, indexQuery, hT, hq] at hrun
    obtain ⟨h1, -⟩ := hrun
    subst h1
    refine ⟨rfl, ?_, ?_⟩
    · simp [List.map_take, List.map_drop]
    · simp only [List.length_take]
      omega

/-- C7 (witness): `list(0, 0)` against a healthy store with 42 vectors whose
probe returns a non-empty match list yields empty hits and `total = 42`. -/
theorem C7_witness :
    (∀ k, envListOk.statsOutcome k = .ok 42) ∧
    (∀ k, envListOk.queryOutcome k dummy_vector (0 + 0) = .ok msDemo) ∧
    ((⟨[], 42⟩ : SearchResponse).total = 42 ∧
     (⟨[], 42⟩ : SearchResponse).resultados =
       ((msDemo.drop 0).take 0).map matchToResponse ∧
     (⟨[], 42⟩ : SearchResponse).resultados.length ≤ 0) :=
  ⟨fun _ => rfl, fun _ => rfl,
   C7_list_total_and_window envListOk 0 0 0 42 msDemo wLive ⟨[], 42⟩
     { wLive with nStats := 1, queries := [(dummy_vector, 0 + 0)] }
     (fun _ => rfl) (fun _ => rfl) rfl⟩

/-! ### Claim C8 -/

/-- C8: every successful `distinctFiles()` against a store reporting `T`
vectors and answering the probe with `ms` issues exactly one probe query
requesting `min T 1000` neighbors, and returns a duplicate-free collection
of filenames each of which is an `arquivo` metadata value of some probed
match. -/
theorem C8_distinct_files (env : Env) (f T : Nat) (ms : List QueryMatch)
    (w : World) (files : List String) (w2 : World)
    (hT : ∀ k, env.statsOutcome k = .ok T)
    (hq : ∀ k, env.queryOutcome k dummy_vector (min T 1000) = .ok ms)
    (hrun : listar_arquivos env (f + 1) w = (.ok files, w2)) :
    w2.queries = w.queries ++ [(dummy_vector, min T 1000)] ∧
    files.Nodup ∧
    ∀ a ∈ files, ∃ m ∈ ms, m.arquivo = some a := by
  obtain ⟨h1, h2⟩ := listar_arquivos_run env f T ms w files w2 hT hq hrun
  subst h1
  refine ⟨h2, coletar_arquivos_nodup ms [] List.nodup_nil, ?_⟩
  intro a ha
  rcases (coletar_arquivos_mem ms [] a).1 ha with h | ⟨m, hm, hma, _⟩
  · cases h
  · exact ⟨m, hm, hma⟩

/-- C8 (witness): with 5 vectors and probe matches carrying duplicate, empty
and absent filenames, the returned collection is the duplicate-free
`["a", "b"]` and the single probe requested `min 5 1000` neighbors. -/
theorem C8_witness :
    (∀ k, envFilesOk.statsOutcome k = .ok 5) ∧
    (∀ k, envFilesOk.queryOutcome k dummy_vector (min 5 1000) = .ok msDemo) ∧
    ((⟨false, some 0, 0, 0, 1, [(dummy_vector, min 5 1000)], [], []⟩ : World).queries =
       wLive.queries ++ [(dummy_vector, min 5 1000)] ∧
     (["a", "b"] : List String).Nodup ∧
     ∀ a ∈ (["a", "b"] : List String), ∃ m ∈ msDemo, m.arquivo = some a) :=
  ⟨fun _ => rfl, fun _ => rfl,
   C8_distinct_files envFilesOk 0 5 msDemo wLive ["a", "b"]
     { wLive with nStats := 1, queries := [(dummy_vector, min 5 1000)] }
     (fun _ => rfl) (fun _ => rfl) rfl⟩

/-! ### Claim C9 -/

/-- C9: `distinctFiles()` silently excludes every probed match whose
`arquivo` metadata value is absent or empty: every returned filename is
non-empty, and membership in the result is exactly membership among the
non-empty `arquivo` values of the probed matches — so the empty string never
appears, even when matches carry an empty filename. -/
theorem C9_empty_filename_excluded (env : Env) (f T : Nat)
    (ms : List QueryMatch) (w : World) (files : List String) (w2 : World)
    (hT : ∀ k, env.statsOutcome k = .ok T)
    (hq : ∀ k, env.queryOutcome k dummy_vector (min T 1000) = .ok ms)
    (hrun : listar_arquivos env (f + 1) w = (.ok files, w2)) :
    (∀ a ∈ files, a ≠ "") ∧
    (∀ a, a ∈ files ↔ ∃ m ∈ ms, m.arquivo = some a ∧ a ≠ "") := by
  obtain ⟨h1, -⟩ := listar_arquivos_run env f T ms w files w2 hT hq hrun
  subst h1
  constructor
  · intro a ha
    rcases (coletar_arquivos_mem ms [] a).1 ha with h | ⟨m, hm, hma, hne⟩
    · cases h
    · exact hne
  · intro a
    rw [coletar_arquivos_mem]
    simp

/-- C9 (witness): with probe matches containing an empty filename and an
absent filename, neither contributes: the result is `["a", "b"]` and the
empty string is not a member. -/
theorem C9_witness :
    (∀ k, envFilesOk.statsOutcome k = .ok 5) ∧
    (∀ k, envFilesOk.queryOutcome k dummy_vector (min 5 1000) = .ok msDemo) ∧
    ((∀ a ∈ (["a", "b"] : List String), a ≠ "") ∧
     (∀ a, a ∈ (["a", "b"] : List String) ↔
        ∃ m ∈ msDemo, m.arquivo = some a ∧ a ≠ "")) :=
  ⟨fun _ => rfl, fun _ => rfl,
   C9_empty_filename_excluded envFilesOk 0 5 msDemo wLive ["a", "b"]
     { wLive with nStats := 1, queries := [(dummy_vector, min 5 1000)] }
     (fun _ => rfl) (fun _ => rfl) rfl⟩

/-! ### Claim C6 -/

/-- C6: assuming the store returns at most `top_k` matches ordered by
non-increasing score, every successful `search(q, limit)` — at any recursion
depth of the retry wrapper — satisfies `total = len(hits)`,
`len(hits) ≤ limit`, and the hits (which are the store's matches mapped in
order, score copied verbatim) are non-increasing in score. -/
theorem C6_search_result_shape (env : Env)
    (hstore : ∀ k v t ms, env.queryOutcome k v t = .ok ms →
        ms.length ≤ t ∧ List.Pairwise (fun m1 m2 => m2.score ≤ m1.score) ms) :
    ∀ (fuel limit : Nat) (q : String) (w : World) (r : SearchResponse) (w2 : World),
    buscar_contratos env fuel q limit w = (.ok r, w2) →
    r.total = r.resultados.length ∧
    r.resultados.length ≤ limit ∧
    List.Pairwise (fun a b => b.score ≤ a.score) r.resultados := by
  intro fuel
  induction fuel with
  | zero =>
    intro limit q w r w2 h
    rw [buscar_contratos] at h
    simp at h
  | succ f ih =>
    intro limit q w r w2 h
    rw [buscar_contratos] at h
    simp only [gerar_embedding, indexQuery] at h
    split at h
    · exact absurd h (by simp)
    · split at h
      · split at h
        · split at h
          · rename_i ms hquery
            injection h with h1 h2
            injection h1 with h1
            subst h1
            refine ⟨rfl, ?_, ?_⟩
            · rw [List.length_map]
              exact (hstore _ _ _ _ hquery).1
            · rw [List.pairwise_map]
              exact (hstore _ _ _ _ hquery).2
          · split at h
            · split at h
              · rename_i v wr hrec
                injection h with h1 h2
                injection h1 with h1
                subst h1
                exact ih _ _ _ _ _ hrec
              · exact absurd h (by simp)
              · exact absurd h (by simp)
            · exact absurd h (by simp)
        · split at h
          · split at h
            · rename_i v wr hrec
              injection h with h1 h2
              injection h1 with h1
              subst h1
              exact ih _ _ _ _ _ hrec
            · exact absurd h (by simp)
            · exact absurd h (by simp)
          · exact absurd h (by simp)
      · exact absurd h (by simp)

/-- C6 (witness): a healthy store returning no matches satisfies the ordered
store contract, and the successful search result has `total = 0 = len(hits)`
with trivially sorted hits. -/
theorem C6_witness :
    (∀ k v t ms, envSearchOk.queryOutcome k v t = .ok ms →
        ms.length ≤ t ∧ List.Pairwise (fun m1 m2 => m2.score ≤ m1.score) ms) ∧
    ((⟨[], 0⟩ : SearchResponse).total = (⟨[], 0⟩ : SearchResponse).resultados.length ∧
     (⟨[], 0⟩ : SearchResponse).resultados.length ≤ 5 ∧
     List.Pairwise (fun a b => b.score ≤ a.score)
       (⟨[], 0⟩ : SearchResponse).resultados) := by
  have hstore : ∀ k v t ms, envSearchOk.queryOutcome k v t = .ok ms →
      ms.length ≤ t ∧ List.Pairwise (fun m1 m2 => m2.score ≤ m1.score) ms := by
    intro k v t ms hm
    simp [envSearchOk] at hm
    subst hm
    exact ⟨Nat.zero_le _, List.Pairwise.nil⟩
  exact ⟨hstore,
    C6_search_result_shape envSearchOk hstore 1 5 "x" wLive ⟨[], 0⟩
      ⟨false, some 0, 0, 0, 0, [([1], 5)], ["x"], []⟩ rfl⟩

/-! ### Claim C3 -/

/-- C3 (counterexample): the claim "the whole operation is retried at most
once, never a second or further automatic retry" is false.  With a live
handle, queries that fail twice before succeeding, and reconnections that
always succeed, a single caller-visible `list` invocation performs three
query attempts (two automatic retries) and still returns success. -/
theorem C3_counterexample :
    (listar_contratos envRetryTwice 9 0 10 wLive).1 = .ok ⟨[], 7⟩ ∧
    (listar_contratos envRetryTwice 9 0 10 wLive).2.queries.length = 3 := by
  simp [listar_contratos, checkConnection, conectar_pinecone, indexStats, indexQuery,
        envRetryTwice, wLive, world0, MAX_RECONNECT_ATTEMPTS]

/-- C3 (amended): after a query failure the gateway reconnects and re-invokes
the whole operation from the top once per recursion level; because the retry
is a full re-invocation, a caller-visible invocation performs one query
attempt per consecutive (failure, successful reconnect) pair.  With `n`
initial query failures, each followed by a successful reconnect, and the
(n+1)-st probe query succeeding, `list` performs exactly `n + 1` query
attempts — that is, `n` automatic retries, not at most one — and returns the
successful page. -/
theorem C3_retry_reenters_from_top (env : Env) :
    ∀ (n fuel skip limit : Nat) (S : Nat → Nat) (E : Nat → String)
      (ms : List QueryMatch) (w : World) (i : Nat),
      w.index = some i →
      (∀ k, ∃ t, env.connOutcome k = .success t) →
      (∀ k, env.statsOutcome k = .ok (S k)) →
      (∀ j, j < n → env.queryOutcome (w.queries.length + j) dummy_vector (skip + limit) =
         .error (E j)) →
      env.queryOutcome (w.queries.length + n) dummy_vector (skip + limit) = .ok ms →
      n + 1 ≤ fuel →
      (listar_contratos env fuel skip limit w).1 =
        .ok ⟨((ms.drop skip).take limit).map matchToResponse, S (w.nStats + n)⟩ ∧
      (listar_contratos env fuel skip limit w).2.queries.length =
        w.queries.length + (n + 1) := by
  intro n
  induction n with
  | zero =>
    intro fuel skip limit S E ms w i hidx hconn hstats hq hqn hfuel
    obtain ⟨f, rfl⟩ : ∃ f, fuel = f + 1 := ⟨fuel - 1, by omega⟩
    rw [Nat.add_zero] at hqn
    rw [listar_contratos]
    simp [checkConnection, hidx, indexStats, indexQuery, hstats, hqn]
  | succ n ih =>
    intro fuel skip limit S E ms w i hidx hconn hstats hq hqn hfuel
    obtain ⟨f, rfl⟩ : ∃ f, fuel = f + 1 := ⟨fuel - 1, by omega⟩
    have hq0 := hq 0 (by omega)
    rw [Nat.add_zero] at hq0
    rw [listar_contratos]
    simp only [checkConnection, hidx, indexStats, indexQuery, hstats, hq0]
    obtain ⟨t0, ht0⟩ := hconn w.nConn
    rw [conectar_success_eq env
      ⟨w.pc, some i, w.connection_attempts, w.nConn, w.nStats + 1,
       w.queries ++ [(dummy_vector, skip + limit)], w.embeds, w.sleeps⟩ t0 ht0]
    simp only [if_true]
    have hq1 : ∀ j, j < n →
        env.queryOutcome
          ((⟨true, some w.nConn, 0, w.nConn + 1, w.nStats + 1,
             w.queries ++ [(dummy_vector, skip + limit)], w.embeds, w.sleeps⟩ :
            World).queries.length + j) dummy_vector (skip + limit) =
          .error ((fun j => E (j + 1)) j) := by
      intro j hj
      have harith : (⟨true, some w.nConn, 0, w.nConn + 1, w.nStats + 1,
          w.queries ++ [(dummy_vector, skip + limit)], w.embeds, w.sleeps⟩ :
            World).queries.length + j = w.queries.length + (j + 1) := by
        simp
        omega
      rw [harith]
      exact hq (j + 1) (by omega)
    have hqn1 : env.queryOutcome
        ((⟨true, some w.nConn, 0, w.nConn + 1, w.nStats + 1,
           w.queries ++ [(dummy_vector, skip + limit)], w.embeds, w.sleeps⟩ :
          World).queries.length + n) dummy_vector (skip + limit) = .ok ms := by
      have harith : (⟨true, some w.nConn, 0, w.nConn + 1, w.nStats + 1,
          w.queries ++ [(dummy_vector, skip + limit)], w.embeds, w.sleeps⟩ :
            World).queries.length + n = w.queries.length + (n + 1) := by
        simp
        omega
      rw [harith]
      exact hqn
    obtain ⟨hrec1, hrec2⟩ := ih f skip limit S (fun j => E (j + 1)) ms
      ⟨true, some w.nConn, 0, w.nConn + 1, w.nStats + 1,
       w.queries ++ [(dummy_vector, skip + limit)], w.embeds, w.sleeps⟩
      w.nConn rfl hconn hstats hq1 hqn1 (by omega)
    rcases hP : listar_contratos env f skip limit
        ⟨true, some w.nConn, 0, w.nConn + 1, w.nStats + 1,
         w.queries ++ [(dummy_vector, skip + limit)], w.embeds, w.sleeps⟩ with ⟨res1, wres⟩
    rw [hP] at hrec1 hrec2
    simp only [] at hrec1 hrec2
    subst hrec1
    simp only []
    constructor
    · rw [show w.nStats + (n + 1) = w.nStats + 1 + n from by omega]
    · rw [hrec2]
      simp
      omega

/-- C3 (witness): the amended claim instantiated at two consecutive failures
(n = 2): three query attempts, success at the end. -/
theorem C3_witness :
    wLive.index = some 0 ∧
    (∀ k, ∃ t, envRetryTwice.connOutcome k = ConnOutcome.success t) ∧
    (∀ k, envRetryTwice.statsOutcome k = .ok 7) ∧
    (∀ j, j < 2 → envRetryTwice.queryOutcome (wLive.queries.length + j)
       dummy_vector (0 + 10) = .error "falha na consulta") ∧
    envRetryTwice.queryOutcome (wLive.queries.length + 2) dummy_vector (0 + 10) =
      .ok [] ∧
    (listar_contratos envRetryTwice 9 0 10 wLive).1 =
      .ok ⟨((([] : List QueryMatch).drop 0).take 10).map matchToResponse, 7⟩ ∧
    (listar_contratos envRetryTwice 9 0 10 wLive).2.queries.length =
      wLive.queries.length + (2 + 1) := by
  have hq : ∀ j, j < 2 → envRetryTwice.queryOutcome (wLive.queries.length + j)
      dummy_vector (0 + 10) = .error "falha na consulta" := by
    intro j hj
    show (if 0 + j < 2 then (Except.error "falha na consulta" :
        Except String (List QueryMatch)) else .ok []) = .error "falha na consulta"
    rw [if_pos (by omega)]
  have h := C3_retry_reenters_from_top envRetryTwice 2 9 0 10 (fun _ => 7)
    (fun _ => "falha na consulta") [] wLive 0 rfl (fun _ => ⟨0, rfl⟩)
    (fun _ => rfl) hq rfl (by omega)
  exact ⟨rfl, fun _ => ⟨0, rfl⟩, fun _ => rfl, hq, rfl, h.1, h.2⟩

/-! ### Claim C10 -/

/-- A reconnect entered with the failure counter at zero, against a store
whose client constructor raises on every remaining attempt, exhausts the
bound and reports failure. -/
theorem conectar_clientfail_exhaust (env : Env) (w : World)
    (h0 : w.connection_attempts = 0)
    (hf : ∀ j, env.connOutcome (w.nConn + j) = .failAtClient) :
    (conectar_pinecone env w).1 = false := by
  have hM : MAX_RECONNECT_ATTEMPTS = 3 := rfl
  have h1 := hf 0
  rw [Nat.add_zero] at h1
  have h2 := hf 1
  have h3 := hf 2
  rw [conectar_pinecone, h1]
  simp only []
  rw [dif_pos (show w.connection_attempts + 1 < MAX_RECONNECT_ATTEMPTS by omega)]
  rw [conectar_pinecone]
  simp only []
  rw [h2]
  simp only []
  rw [dif_pos (show w.connection_attempts + 1 + 1 < MAX_RECONNECT_ATTEMPTS by omega)]
  rw [conectar_pinecone]
  simp only []
  rw [h3]
  simp only []
  rw [dif_neg (show ¬ w.connection_attempts + 1 + 1 + 1 < MAX_RECONNECT_ATTEMPTS by omega)]

/-- In `listar_contratos`, when the first query fails with `e1`, the
reconnect succeeds, the retried invocation's query fails with `e2` and its
own reconnect fails, the surfaced HTTP 500 carries the original error text
`e1`, not `e2`. -/
theorem listar_retry_error_discarded (env : Env) (f skip limit : Nat)
    (w : World) (i : Nat) (e1 e2 : String) (T0 T1 T2 : Nat)
    (hidx : w.index = some i)
    (hstats1 : env.statsOutcome w.nStats = .ok T1)
    (hstats2 : env.statsOutcome (w.nStats + 1) = .ok T2)
    (hq1 : env.queryOutcome w.queries.length dummy_vector (skip + limit) = .error e1)
    (hq2 : env.queryOutcome (w.queries.length + 1) dummy_vector (skip + limit) = .error e2)
    (hconn0 : env.connOutcome w.nConn = .success T0)
    (hfail : ∀ j, env.connOutcome (w.nConn + 1 + j) = .failAtClient) :
    (listar_contratos env (f + 1 + 1) skip limit w).1 =
      .http 500 ("Erro ao listar contratos: " ++ e1) := by
  rw [listar_contratos]
  simp only [checkConnection, hidx, indexStats, indexQuery, hstats1, hq1]
  rw [conectar_success_eq env
    ⟨w.pc, some i, w.connection_attempts, w.nConn, w.nStats + 1,
     w.queries ++ [(dummy_vector, skip + limit)], w.embeds, w.sleeps⟩ T0 hconn0]
  simp only [if_true]
  rw [listar_contratos]
  simp only [checkConnection, indexStats, indexQuery, List.length_append,
             List.length_cons, List.length_nil, hstats2]
  simp only [Nat.zero_add, hq2, if_true]
  have hexh := conectar_clientfail_exhaust env
    ⟨true, some w.nConn, 0, w.nConn + 1, w.nStats + 1 + 1,
     w.queries ++ [(dummy_vector, skip + limit)] ++ [(dummy_vector, skip + limit)],
     w.embeds, w.sleeps⟩ rfl (fun j => hfail j)
  rw [hexh]
  rw [if_neg (by decide : ¬ (false = true))]

/-- In `buscar_contratos`, the analogue of `listar_retry_error_discarded`:
the surfaced HTTP 500 carries the first failure's error text. -/
theorem buscar_retry_error_discarded (env : Env) (f limit : Nat) (q : String)
    (w : World) (i : Nat) (e1 e2 : String) (v1 v2 : List Rat) (T0 : Nat)
    (hqne : ¬ q = "")
    (hidx : w.index = some i)
    (hemb1 : env.embedOutcome w.embeds.length q = .ok v1)
    (hemb2 : env.embedOutcome (w.embeds.length + 1) q = .ok v2)
    (hq1 : env.queryOutcome w.queries.length v1 limit = .error e1)
    (hq2 : env.queryOutcome (w.queries.length + 1) v2 limit = .error e2)
    (hconn0 : env.connOutcome w.nConn = .success T0)
    (hfail : ∀ j, env.connOutcome (w.nConn + 1 + j) = .failAtClient) :
    (buscar_contratos env (f + 1 + 1) q limit w).1 =
      .http 500 ("Erro ao realizar a busca: " ++ e1) := by
  rw [buscar_contratos]
  simp only [if_neg hqne, checkConnection, hidx, gerar_embedding, indexQuery, hemb1, hq1]
  rw [conectar_success_eq env
    ⟨w.pc, some i, w.connection_attempts, w.nConn, w.nStats,
     w.queries ++ [(v1, limit)], w.embeds ++ [q], w.sleeps⟩ T0 hconn0]
  simp only [if_true]
  rw [buscar_contratos]
  simp only [if_neg hqne, checkConnection, gerar_embedding, indexQuery,
             List.length_append, List.length_cons, List.length_nil]
  simp only [Nat.zero_add, hemb2, hq2, if_true]
  have hexh := conectar_clientfail_exhaust env
    ⟨true, some w.nConn, 0, w.nConn + 1, w.nStats,
     w.queries ++ [(v1, limit)] ++ [(v2, limit)],
     w.embeds ++ [q] ++ [q], w.sleeps⟩ rfl (fun j => hfail j)
  rw [hexh]
  rw [if_neg (by decide : ¬ (false = true))]

/-- In `listar_arquivos`, the analogue of `listar_retry_error_discarded`:
the surfaced HTTP 500 carries the first failure's error text. -/
theorem arquivos_retry_error_discarded (env : Env) (f : Nat)
    (w : World) (i : Nat) (e1 e2 : String) (T0 T1 T2 : Nat)
    (hidx : w.index = some i)
    (hstats1 : env.statsOutcome w.nStats = .ok T1)
    (hstats2 : env.statsOutcome (w.nStats + 1) = .ok T2)
    (hq1 : env.queryOutcome w.queries.length dummy_vector (min T1 1000) = .error e1)
    (hq2 : env.queryOutcome (w.queries.length + 1) dummy_vector (min T2 1000) = .error e2)
    (hconn0 : env.connOutcome w.nConn = .success T0)
    (hfail : ∀ j, env.connOutcome (w.nConn + 1 + j) = .failAtClient) :
    (listar_arquivos env (f + 1 + 1) w).1 =
      .http 500 ("Erro ao listar arquivos: " ++ e1) := by
  rw [listar_arquivos]
  simp only [checkConnection, hidx, indexStats, indexQuery, hstats1, hq1]
  rw [conectar_success_eq env
    ⟨w.pc, some i, w.connection_attempts, w.nConn, w.nStats + 1,
     w.queries ++ [(dummy_vector, min T1 1000)], w.embeds, w.sleeps⟩ T0 hconn0]
  simp only [if_true]
  rw [listar_arquivos]
  simp only [checkConnection, indexStats, indexQuery, List.length_append,
             List.length_cons, List.length_nil, hstats2]
  simp only [Nat.zero_add, hq2, if_true]
  have hexh := conectar_clientfail_exhaust env
    ⟨true, some w.nConn, 0, w.nConn + 1, w.nStats + 1 + 1,
     w.queries ++ [(dummy_vector, min T1 1000)] ++ [(dummy_vector, min T2 1000)],
     w.embeds, w.sleeps⟩ rfl (fun j => hfail j)
  rw [hexh]
  rw [if_neg (by decide : ¬ (false = true))]

/-- C10: for each of the three operations, when the gateway-level retry
itself fails (here: the retried invocation's query fails and its reconnect
exhausts the bound), the retry's exception is discarded and the surfaced
HTTP 500 detail carries the error text of the original (first) failure
`e1`, not of the retry's failure `e2`. -/
theorem C10_retry_error_discarded :
    (∀ (env : Env) (f skip limit : Nat) (w : World) (i : Nat)
       (e1 e2 : String) (T0 T1 T2 : Nat),
       w.index = some i →
       env.statsOutcome w.nStats = .ok T1 →
       env.statsOutcome (w.nStats + 1) = .ok T2 →
       env.queryOutcome w.queries.length dummy_vector (skip + limit) = .error e1 →
       env.queryOutcome (w.queries.length + 1) dummy_vector (skip + limit) = .error e2 →
       env.connOutcome w.nConn = .success T0 →
       (∀ j, env.connOutcome (w.nConn + 1 + j) = .failAtClient) →
       (listar_contratos env (f + 1 + 1) skip limit w).1 =
         .http 500 ("Erro ao listar contratos: " ++ e1)) ∧
    (∀ (env : Env) (f limit : Nat) (q : String) (w : World) (i : Nat)
       (e1 e2 : String) (v1 v2 : List Rat) (T0 : Nat),
       ¬ q = "" →
       w.index = some i →
       env.embedOutcome w.embeds.length q = .ok v1 →
       env.embedOutcome (w.embeds.length + 1) q = .ok v2 →
       env.queryOutcome w.queries.length v1 limit = .error e1 →
       env.queryOutcome (w.queries.length + 1) v2 limit = .error e2 →
       env.connOutcome w.nConn = .success T0 →
       (∀ j, env.connOutcome (w.nConn + 1 + j) = .failAtClient) →
       (buscar_contratos env (f + 1 + 1) q limit w).1 =
         .http 500 ("Erro ao realizar a busca: " ++ e1)) ∧
    (∀ (env : Env) (f : Nat) (w : World) (i : Nat)
       (e1 e2 : String) (T0 T1 T2 : Nat),
       w.index = some i →
       env.statsOutcome w.nStats = .ok T1 →
       env.statsOutcome (w.nStats + 1) = .ok T2 →
       env.queryOutcome w.queries.length dummy_vector (min T1 1000) = .error e1 →
       env.queryOutcome (w.queries.length + 1) dummy_vector (min T2 1000) = .error e2 →
       env.connOutcome w.nConn = .success T0 →
       (∀ j, env.connOutcome (w.nConn + 1 + j) = .failAtClient) →
       (listar_arquivos env (f + 1 + 1) w).1 =
         .http 500 ("Erro ao listar arquivos: " ++ e1)) :=
  ⟨fun env f skip limit w i e1 e2 T0 T1 T2 h1 h2 h3 h4 h5 h6 h7 =>
     listar_retry_error_discarded env f skip limit w i e1 e2 T0 T1 T2 h1 h2 h3 h4 h5 h6 h7,
   fun env f limit q w i e1 e2 v1 v2 T0 h0 h1 h2 h3 h4 h5 h6 h7 =>
     buscar_retry_error_discarded env f limit q w i e1 e2 v1 v2 T0 h0 h1 h2 h3 h4 h5 h6 h7,
   fun env f w i e1 e2 T0 T1 T2 h1 h2 h3 h4 h5 h6 h7 =>
     arquivos_retry_error_discarded env f w i e1 e2 T0 T1 T2 h1 h2 h3 h4 h5 h6 h7⟩

/-- C10 (witness): with the first reconnect succeeding, every later
connection attempt failing, and queries failing with "erro um" then
"erro dois", all three operations surface HTTP 500 carrying "erro um". -/
theorem C10_witness :
    (listar_contratos envC10 2 0 10 wLive).1 =
      .http 500 ("Erro ao listar contratos: " ++ "erro um") ∧
    (buscar_contratos envC10 2 "x" 5 wLive).1 =
      .http 500 ("Erro ao realizar a busca: " ++ "erro um") ∧
    (listar_arquivos envC10 2 wLive).1 =
      .http 500 ("Erro ao listar arquivos: " ++ "erro um") := by
  have hfail : ∀ j, envC10.connOutcome (wLive.nConn + 1 + j) = .failAtClient := by
    intro j
    show (if 0 + 1 + j = 0 then ConnOutcome.success 5 else .failAtClient) = .failAtClient
    rw [if_neg (by omega)]
  refine ⟨?_, ?_, ?_⟩
  · exact C10_retry_error_discarded.1 envC10 0 0 10 wLive 0 "erro um" "erro dois"
      5 7 7 rfl rfl rfl rfl rfl rfl hfail
  · exact C10_retry_error_discarded.2.1 envC10 0 5 "x" wLive 0 "erro um" "erro dois"
      [1] [1] 5 (by decide) rfl rfl rfl rfl rfl rfl hfail
  · exact C10_retry_error_discarded.2.2 envC10 0 wLive 0 "erro um" "erro dois"
      5 7 7 rfl rfl rfl rfl rfl rfl hfail
